import Mathlib

set_option maxRecDepth 4000

/-!
Verification development for the QRCodeGen repository
(src/qrcodegen.py, the ColorQR Flask application, and src/qrgen.py, the
standalone prototype endpoint).  Python strings are modelled as lists of
characters, the SQLAlchemy tables as lists of records, the PIL image
operations as a free algebra of symbolic image terms (each PIL primitive is
a deterministic external collaborator), and the uuid4 draws as an explicit
supply of identifiers passed into each route.
-/

/-- Python strings, modelled as lists of characters. -/
abbrev PyStr := List Char

/-- The characters removed by Python str.strip (space, tab, newline,
carriage return, vertical tab, form feed). -/
def pyIsSpace (c : Char) : Bool :=
  c = ' ' || c = '\t' || c = '\n' || c = '\r' || c = Char.ofNat 11 || c = Char.ofNat 12

/-- Python str.strip: drop leading and trailing whitespace. -/
def pyStrip (s : PyStr) : PyStr :=
  ((s.dropWhile pyIsSpace).reverse.dropWhile pyIsSpace).reverse

/-- ASCII lowering of a single character (Python str.lower on the ASCII
range; all strings handled by the routes under proof are ASCII). -/
def pyLowerChar (c : Char) : Char :=
  if 65 ≤ c.toNat ∧ c.toNat ≤ 90 then Char.ofNat (c.toNat + 32) else c

/-- Python str.lower. -/
def pyLower (s : PyStr) : PyStr := s.map pyLowerChar

/-- Python slicing s[i:j] on a list of characters. -/
def pySlice (l : PyStr) (i j : Nat) : PyStr := (l.drop i).take (j - i)

/-- qrcodegen.py lines 231-238: normalize_url.  Strips the input, keeps it
when it already carries an http or https scheme (case-insensitively), and
prefixes the https scheme otherwise. -/
def normalize_url (link : PyStr) : PyStr :=
  if pyStrip link = [] then []
  else if "http://".toList.isPrefixOf (pyLower (pyStrip link)) = true
      ∨ "https://".toList.isPrefixOf (pyLower (pyStrip link)) = true then pyStrip link
  else "https://".toList ++ pyStrip link

/-- Value of one hexadecimal digit as accepted by Python int(_, 16). -/
def hexDigitVal (c : Char) : Option Int :=
  if '0' ≤ c ∧ c ≤ '9' then some ((c.toNat : Int) - 48)
  else if 'a' ≤ c ∧ c ≤ 'f' then some ((c.toNat : Int) - 87)
  else if 'A' ≤ c ∧ c ≤ 'F' then some ((c.toNat : Int) - 55)
  else none

/-- Python int(s, 16) restricted to the at-most-two-character slices taken
by _hex_to_rgb: two digits, one digit, a digit padded by one whitespace
character, or a sign followed by a digit.  Every other shape raises
ValueError in Python, modelled as none. -/
def pyIntHex2 : PyStr → Option Int
  | [] => none
  | [c] => hexDigitVal c
  | [c1, c2] =>
    match hexDigitVal c1, hexDigitVal c2 with
    | some v1, some v2 => some (16 * v1 + v2)
    | some v1, none => if pyIsSpace c2 then some v1 else none
    | none, some v2 =>
      if pyIsSpace c1 then some v2
      else if c1 = '+' then some v2
      else if c1 = '-' then some (-v2)
      else none
    | none, none => none
  | _ => none

/-- qrcodegen.py lines 252-255: the preprocessing performed by _hex_to_rgb
before slicing: empty input is replaced by the black default, leading hash
marks are stripped, and a three-character body has every character
doubled. -/
def hexPre (h0 : PyStr) : PyStr :=
  if h0 = [] then "#000000".toList
  else
    (fun h2 => if h2.length = 3 then (h2.map (fun c => [c, c])).flatten else h2)
      (h0.dropWhile (fun c => c = '#'))

/-- qrcodegen.py lines 252-259: _hex_to_rgb.  Slices the preprocessed body
at positions 0-2, 2-4, 4-6 and parses each slice with int(_, 16); any
parse failure is swallowed and yields the hard-coded black triple. -/
def hex_to_rgb (h0 : PyStr) : Int × Int × Int :=
  match pyIntHex2 (pySlice (hexPre h0) 0 2), pyIntHex2 (pySlice (hexPre h0) 2 4),
      pyIntHex2 (pySlice (hexPre h0) 4 6) with
  | some r, some g, some b => (r, g, b)
  | _, _, _ => (0, 0, 0)

/-- qrcodegen.py lines 241-249: _normalize_hex. -/
def normalize_hex (h0 : PyStr) : PyStr :=
  if pyStrip h0 = [] then "#000000".toList
  else
    (fun h1 => pyLower (if h1.length = 4 then '#' :: ((h1.drop 1).map (fun c => [c, c])).flatten else h1))
      (if "#".toList.isPrefixOf (pyStrip h0) = true then pyStrip h0 else '#' :: pyStrip h0)

-- Helper lemmas about dropWhile / strip, used for idempotence of the two
-- normalizers.

lemma dropWhile_head_not {p : Char → Bool} {l : PyStr} {a : Char}
    (h : (l.dropWhile p).head? = some a) : p a = false := by
  induction l with
  | nil => simp [List.dropWhile] at h
  | cons b t ih =>
    rw [List.dropWhile_cons] at h
    by_cases hb : p b
    · rw [if_pos hb] at h
      exact ih h
    · rw [if_neg hb] at h
      simp only [List.head?_cons, Option.some.injEq] at h
      rw [← h]
      exact Bool.eq_false_iff.mpr hb

lemma dropWhile_eq_self_of_head {p : Char → Bool} {l : PyStr}
    (h : ∀ a, l.head? = some a → p a = false) : l.dropWhile p = l := by
  cases l with
  | nil => rfl
  | cons b t =>
    rw [List.dropWhile_cons, if_neg]
    rw [h b rfl]
    simp

lemma getLast?_append_right (l₁ : PyStr) {l₂ : PyStr} (h : l₂ ≠ []) :
    (l₁ ++ l₂).getLast? = l₂.getLast? := by
  induction l₁ with
  | nil => rfl
  | cons a t ih =>
    have htl : t ++ l₂ ≠ [] := by
      intro he
      exact h (List.append_eq_nil.mp he).2
    cases hc : t ++ l₂ with
    | nil => exact absurd hc htl
    | cons b u =>
      show (a :: (t ++ l₂)).getLast? = l₂.getLast?
      rw [hc, List.getLast?_cons_cons, ← hc, ih]

lemma getLast?_dropWhile {p : Char → Bool} {l : PyStr}
    (h : l.dropWhile p ≠ []) : (l.dropWhile p).getLast? = l.getLast? := by
  induction l with
  | nil => simp [List.dropWhile] at h
  | cons b t ih =>
    rw [List.dropWhile_cons]
    by_cases hb : p b
    · rw [List.dropWhile_cons, if_pos hb] at h
      rw [if_pos hb, ih h]
      have ht : t ≠ [] := by
        intro he
        rw [he] at h
        exact h rfl
      cases t with
      | nil => exact absurd rfl ht
      | cons c u => rw [List.getLast?_cons_cons]
    · rw [if_neg hb]

lemma pyStrip_head_not {l : PyStr} {a : Char}
    (h : (pyStrip l).head? = some a) : pyIsSpace a = false := by
  unfold pyStrip at h
  rw [List.head?_reverse] at h
  have hne : (l.dropWhile pyIsSpace).reverse.dropWhile pyIsSpace ≠ [] := by
    intro he
    rw [he] at h
    exact Option.noConfusion h
  rw [getLast?_dropWhile hne, List.getLast?_reverse] at h
  exact dropWhile_head_not h

lemma pyStrip_getLast_not {l : PyStr} {a : Char}
    (h : (pyStrip l).getLast? = some a) : pyIsSpace a = false := by
  unfold pyStrip at h
  rw [List.getLast?_reverse] at h
  exact dropWhile_head_not h

lemma pyStrip_eq_self {l : PyStr}
    (h1 : ∀ a, l.head? = some a → pyIsSpace a = false)
    (h2 : ∀ a, l.getLast? = some a → pyIsSpace a = false) : pyStrip l = l := by
  unfold pyStrip
  rw [dropWhile_eq_self_of_head h1]
  rw [dropWhile_eq_self_of_head (fun a ha => h2 a (by rwa [List.head?_reverse] at ha))]
  exact List.reverse_reverse l

lemma pyStrip_idem (l : PyStr) : pyStrip (pyStrip l) = pyStrip l :=
  pyStrip_eq_self (fun _ h => pyStrip_head_not h) (fun _ h => pyStrip_getLast_not h)

lemma pyLower_append (a b : PyStr) : pyLower (a ++ b) = pyLower a ++ pyLower b :=
  List.map_append pyLowerChar a b

lemma pyStrip_https_append {v : PyStr} (hv : pyStrip v = v) (hne : v ≠ []) :
    pyStrip ("https://".toList ++ v) = "https://".toList ++ v := by
  apply pyStrip_eq_self
  · intro a ha
    have hh : ("https://".toList ++ v).head? = some 'h' := rfl
    rw [hh] at ha
    have : a = 'h' := (Option.some.injEq _ _).mp ha.symm
    rw [this]
    decide
  · intro a ha
    rw [getLast?_append_right _ hne] at ha
    rw [← hv] at ha
    exact pyStrip_getLast_not ha

/-- C10: URL normalization is idempotent: normalizing an already-normalized
string returns it unchanged, for every input string. -/
theorem c10_confirmed (s : PyStr) :
    normalize_url (normalize_url s) = normalize_url s := by
  by_cases h0 : pyStrip s = []
  · have h1 : normalize_url s = [] := by
      unfold normalize_url
      rw [if_pos h0]
    rw [h1]
    unfold normalize_url
    rw [if_pos (show pyStrip [] = [] from rfl)]
  · by_cases hpre : "http://".toList.isPrefixOf (pyLower (pyStrip s)) = true
        ∨ "https://".toList.isPrefixOf (pyLower (pyStrip s)) = true
    · have h1 : normalize_url s = pyStrip s := by
        unfold normalize_url
        rw [if_neg h0, if_pos hpre]
      rw [h1]
      unfold normalize_url
      rw [pyStrip_idem s, if_neg h0, if_pos hpre]
    · have h1 : normalize_url s = "https://".toList ++ pyStrip s := by
        unfold normalize_url
        rw [if_neg h0, if_neg hpre]
      rw [h1]
      have hstr : pyStrip ("https://".toList ++ pyStrip s) = "https://".toList ++ pyStrip s :=
        pyStrip_https_append (pyStrip_idem s) h0
      have hne2 : "https://".toList ++ pyStrip s ≠ [] := by simp
      have hlow : pyLower ("https://".toList ++ pyStrip s)
          = "https://".toList ++ pyLower (pyStrip s) := by
        rw [pyLower_append]
        have : pyLower ("https://".toList) = "https://".toList := by decide
        rw [this]
      have hp2 : "https://".toList.isPrefixOf (pyLower ("https://".toList ++ pyStrip s)) = true := by
        rw [hlow]
        rw [List.isPrefixOf_iff_prefix]
        exact List.prefix_append _ _
      unfold normalize_url
      rw [hstr, if_neg hne2, if_pos (Or.inr hp2)]

-- Hex parsing: claim C5.

lemma hexDigit_ne_hash {c : Char} {v : Int} (h : hexDigitVal c = some v) : c ≠ '#' := by
  intro e
  subst e
  have hn : hexDigitVal '#' = none := by decide
  rw [hn] at h
  exact Option.noConfusion h

/-- C5 (counterexample): the malformed five-digit string 12345 does not
resolve to any default color: _hex_to_rgb slices it into 12, 34, 5 and
parses a truncated triple, so it is neither black nor white. -/
theorem c5_counterexample :
    hex_to_rgb ("12345".toList) = (18, 52, 5) ∧
    ((18 : Int), (52 : Int), (5 : Int)) ≠ ((0 : Int), (0 : Int), (0 : Int)) ∧
    ((18 : Int), (52 : Int), (5 : Int)) ≠ ((255 : Int), (255 : Int), (255 : Int)) :=
  ⟨by decide, by decide, by decide⟩

/-- C5 (amended): valid 3- and 6-digit hex strings (case-insensitive,
leading hash optional) parse to the exact RGB triple; whenever any slice of
the preprocessed body fails to parse, the function falls back to the
hard-coded black triple (0,0,0) — there is no caller-supplied default, and
the only other possibility is a successfully parsed slice triple. -/
theorem c5_amended :
    (∀ c1 c2 c3 c4 c5 c6 : Char, ∀ v1 v2 v3 v4 v5 v6 : Int,
      hexDigitVal c1 = some v1 → hexDigitVal c2 = some v2 → hexDigitVal c3 = some v3 →
      hexDigitVal c4 = some v4 → hexDigitVal c5 = some v5 → hexDigitVal c6 = some v6 →
      hex_to_rgb ('#' :: [c1, c2, c3, c4, c5, c6]) = (16 * v1 + v2, 16 * v3 + v4, 16 * v5 + v6) ∧
      hex_to_rgb [c1, c2, c3, c4, c5, c6] = (16 * v1 + v2, 16 * v3 + v4, 16 * v5 + v6)) ∧
    (∀ c1 c2 c3 : Char, ∀ v1 v2 v3 : Int,
      hexDigitVal c1 = some v1 → hexDigitVal c2 = some v2 → hexDigitVal c3 = some v3 →
      hex_to_rgb ('#' :: [c1, c2, c3]) = (16 * v1 + v1, 16 * v2 + v2, 16 * v3 + v3) ∧
      hex_to_rgb [c1, c2, c3] = (16 * v1 + v1, 16 * v2 + v2, 16 * v3 + v3)) ∧
    (∀ h : PyStr, hex_to_rgb h = (0, 0, 0) ∨
      (pyIntHex2 (pySlice (hexPre h) 0 2) = some (hex_to_rgb h).1 ∧
       pyIntHex2 (pySlice (hexPre h) 2 4) = some (hex_to_rgb h).2.1 ∧
       pyIntHex2 (pySlice (hexPre h) 4 6) = some (hex_to_rgb h).2.2)) := by
  refine ⟨?_, ?_, ?_⟩
  · intro c1 c2 c3 c4 c5 c6 v1 v2 v3 v4 v5 v6 h1 h2 h3 h4 h5 h6
    have hne := hexDigit_ne_hash h1
    have hpre1 : hexPre ('#' :: [c1, c2, c3, c4, c5, c6]) = [c1, c2, c3, c4, c5, c6] := by
      unfold hexPre
      rw [if_neg (by simp)]
      have hd : ('#' :: [c1, c2, c3, c4, c5, c6]).dropWhile (fun c => c = '#')
          = [c1, c2, c3, c4, c5, c6] := by
        rw [List.dropWhile_cons, if_pos (by simp), List.dropWhile_cons, if_neg (by simp [hne])]
      rw [hd]
      simp
    have hpre2 : hexPre [c1, c2, c3, c4, c5, c6] = [c1, c2, c3, c4, c5, c6] := by
      unfold hexPre
      rw [if_neg (by simp)]
      have hd : List.dropWhile (fun c => c = '#') [c1, c2, c3, c4, c5, c6]
          = [c1, c2, c3, c4, c5, c6] := by
        rw [List.dropWhile_cons, if_neg (by simp [hne])]
      rw [hd]
      simp
    have s1 : pyIntHex2 (pySlice [c1, c2, c3, c4, c5, c6] 0 2) = some (16 * v1 + v2) := by
      show pyIntHex2 [c1, c2] = _
      simp [pyIntHex2, h1, h2]
    have s2 : pyIntHex2 (pySlice [c1, c2, c3, c4, c5, c6] 2 4) = some (16 * v3 + v4) := by
      show pyIntHex2 [c3, c4] = _
      simp [pyIntHex2, h3, h4]
    have s3 : pyIntHex2 (pySlice [c1, c2, c3, c4, c5, c6] 4 6) = some (16 * v5 + v6) := by
      show pyIntHex2 [c5, c6] = _
      simp [pyIntHex2, h5, h6]
    constructor
    · unfold hex_to_rgb
      rw [hpre1, s1, s2, s3]
    · unfold hex_to_rgb
      rw [hpre2, s1, s2, s3]
  · intro c1 c2 c3 v1 v2 v3 h1 h2 h3
    have hne := hexDigit_ne_hash h1
    have hpre1 : hexPre ('#' :: [c1, c2, c3]) = [c1, c1, c2, c2, c3, c3] := by
      unfold hexPre
      rw [if_neg (by simp)]
      have hd : ('#' :: [c1, c2, c3]).dropWhile (fun c => c = '#') = [c1, c2, c3] := by
        rw [List.dropWhile_cons, if_pos (by simp), List.dropWhile_cons, if_neg (by simp [hne])]
      rw [hd]
      simp
    have hpre2 : hexPre [c1, c2, c3] = [c1, c1, c2, c2, c3, c3] := by
      unfold hexPre
      rw [if_neg (by simp)]
      have hd : List.dropWhile (fun c => c = '#') [c1, c2, c3] = [c1, c2, c3] := by
        rw [List.dropWhile_cons, if_neg (by simp [hne])]
      rw [hd]
      simp
    have s1 : pyIntHex2 (pySlice [c1, c1, c2, c2, c3, c3] 0 2) = some (16 * v1 + v1) := by
      show pyIntHex2 [c1, c1] = _
      simp [pyIntHex2, h1]
    have s2 : pyIntHex2 (pySlice [c1, c1, c2, c2, c3, c3] 2 4) = some (16 * v2 + v2) := by
      show pyIntHex2 [c2, c2] = _
      simp [pyIntHex2, h2]
    have s3 : pyIntHex2 (pySlice [c1, c1, c2, c2, c3, c3] 4 6) = some (16 * v3 + v3) := by
      show pyIntHex2 [c3, c3] = _
      simp [pyIntHex2, h3]
    constructor
    · unfold hex_to_rgb
      rw [hpre1, s1, s2, s3]
    · unfold hex_to_rgb
      rw [hpre2, s1, s2, s3]
  · intro h
    rcases e1 : pyIntHex2 (pySlice (hexPre h) 0 2) with _ | r
    · left
      unfold hex_to_rgb
      rw [e1]
    · rcases e2 : pyIntHex2 (pySlice (hexPre h) 2 4) with _ | g
      · left
        unfold hex_to_rgb
        rw [e1, e2]
      · rcases e3 : pyIntHex2 (pySlice (hexPre h) 4 6) with _ | b
        · left
          unfold hex_to_rgb
          rw [e1, e2, e3]
        · right
          have hr : hex_to_rgb h = (r, g, b) := by
            unfold hex_to_rgb
            rw [e1, e2, e3]
          rw [hr]
          exact ⟨rfl, rfl, rfl⟩

/-- C5 (witness): the amended theorem applied to the mixed-case six-digit
string aBcDeF, which parses to the exact triple (171, 205, 239). -/
theorem c5_witness :
    hex_to_rgb ('#' :: ['a', 'B', 'c', 'D', 'e', 'F']) = (171, 205, 239) := by
  have h := (c5_amended.1 'a' 'B' 'c' 'D' 'e' 'F' 10 11 12 13 14 15
    rfl rfl rfl rfl rfl rfl).1
  norm_num at h
  exact h

-- Color model: sRGB luminance, contrast, and the watermark color choice.

/-- qrcodegen.py lines 271-276: _srgb_gamma, the WCAG sRGB-to-linear
transform (linear below the 0.03928 threshold, power law above). -/
noncomputable def srgb_gamma (c : ℝ) : ℝ :=
  if c ≤ 0.03928 then c / 12.92 else ((c + 0.055) / 1.055) ^ (2.4 : ℝ)

/-- qrcodegen.py lines 279-284: _get_luminance, the gamma-corrected WCAG
relative luminance of an RGB triple. -/
noncomputable def get_luminance (rgb : Int × Int × Int) : ℝ :=
  0.2126 * srgb_gamma ((rgb.1 : ℝ) / 255) + 0.7152 * srgb_gamma ((rgb.2.1 : ℝ) / 255)
    + 0.0722 * srgb_gamma ((rgb.2.2 : ℝ) / 255)

/-- qrcodegen.py lines 287-298: the contrast ratio computed by
_check_contrast from two hex color strings. -/
noncomputable def contrast_cr (c1h c2h : PyStr) : ℝ :=
  (max (get_luminance (hex_to_rgb c1h)) (get_luminance (hex_to_rgb c2h)) + 0.05)
    / (min (get_luminance (hex_to_rgb c1h)) (get_luminance (hex_to_rgb c2h)) + 0.05)

/-- qrcodegen.py line 299: the boolean result of _check_contrast, as the
proposition CR ≥ min_ratio. -/
def check_contrast_holds (c1h c2h : PyStr) (minRatio : ℝ) : Prop :=
  contrast_cr c1h c2h ≥ minRatio

/-- qrcodegen.py lines 468-470: the local lum helper inside
_add_watermark_border — a plain linear weighting of the channels, with no
gamma correction. -/
noncomputable def wm_lum (rgb : Int × Int × Int) : ℝ :=
  0.2126 * ((rgb.1 : ℝ) / 255) + 0.7152 * ((rgb.2.1 : ℝ) / 255)
    + 0.0722 * ((rgb.2.2 : ℝ) / 255)

/-- RGBA color values used for watermark text and stroke. -/
abbrev Rgba := Int × Int × Int × Int

/-- qrcodegen.py lines 454 and 472-473: the (text color, stroke color) pair
chosen by _add_watermark_border from the hex colors it receives.  Only the
background hex is consulted, through the local linear lum helper. -/
noncomputable def wm_colors (backHex fillHex : PyStr) : Rgba × Rgba :=
  (if wm_lum (hex_to_rgb backHex) > 0.6 then (30, 30, 30, 240) else (245, 245, 245, 240),
   if wm_lum (hex_to_rgb backHex) ≤ 0.6 then (255, 255, 255, 210) else (0, 0, 0, 210))

/-- Modelled from the spec, for comparison with wm_colors (claim C8): the
same color choice but driven by the section 4.1 gamma-corrected luminance
_get_luminance, as the spec asserts the framer does. -/
noncomputable def wm_colors_spec (backHex fillHex : PyStr) : Rgba × Rgba :=
  (if get_luminance (hex_to_rgb backHex) > 0.6 then (30, 30, 30, 240) else (245, 245, 245, 240),
   if get_luminance (hex_to_rgb backHex) ≤ 0.6 then (255, 255, 255, 210) else (0, 0, 0, 210))

lemma srgb_gamma_nonneg {x : ℝ} (hx : 0 ≤ x) : 0 ≤ srgb_gamma x := by
  unfold srgb_gamma
  split
  · exact div_nonneg hx (by norm_num)
  · exact Real.rpow_nonneg (div_nonneg (by linarith) (by norm_num)) _

lemma srgb_gamma_zero : srgb_gamma 0 = 0 := by
  unfold srgb_gamma
  rw [if_pos (by norm_num)]
  norm_num

lemma srgb_gamma_one : srgb_gamma 1 = 1 := by
  unfold srgb_gamma
  rw [if_neg (by norm_num)]
  have h : ((1 : ℝ) + 0.055) / 1.055 = 1 := by norm_num
  rw [h, Real.one_rpow]

lemma gamma_gray_le : srgb_gamma (((160 : Int) : ℝ) / 255) ≤ 0.6 := by
  have hcast : (((160 : Int) : ℝ) / 255) = (160 : ℝ) / 255 := by norm_num
  rw [hcast]
  unfold srgb_gamma
  rw [if_neg (by norm_num)]
  set x : ℝ := ((160 : ℝ) / 255 + 0.055) / 1.055 with hxdef
  have hx0 : (0 : ℝ) < x := by rw [hxdef]; norm_num
  have hx1 : x ≤ 1 := by rw [hxdef]; norm_num
  have hsplit : x ^ (2.4 : ℝ) = x ^ (2 : ℝ) * x ^ (0.4 : ℝ) := by
    rw [← Real.rpow_add hx0]
    norm_num
  have h2 : x ^ (2 : ℝ) = x ^ (2 : ℕ) := by
    rw [← Real.rpow_natCast x 2]
    norm_num
  have h04 : x ^ (0.4 : ℝ) ≤ 1 := Real.rpow_le_one hx0.le hx1 (by norm_num)
  have hsq : x ^ (2 : ℕ) ≤ 0.6 := by
    rw [hxdef]
    norm_num
  have hnn : (0 : ℝ) ≤ x ^ (2 : ℝ) := Real.rpow_nonneg hx0.le _
  calc x ^ (2.4 : ℝ) = x ^ (2 : ℝ) * x ^ (0.4 : ℝ) := hsplit
    _ ≤ x ^ (2 : ℝ) * 1 := by nlinarith [h04, hnn]
    _ = x ^ (2 : ℝ) := mul_one _
    _ = x ^ (2 : ℕ) := h2
    _ ≤ 0.6 := hsq

lemma get_lum_gray_le : get_luminance (160, 160, 160) ≤ 0.6 := by
  show 0.2126 * srgb_gamma (((160 : Int) : ℝ) / 255)
      + 0.7152 * srgb_gamma (((160 : Int) : ℝ) / 255)
      + 0.0722 * srgb_gamma (((160 : Int) : ℝ) / 255) ≤ 0.6
  have hg := gamma_gray_le
  have hnn : 0 ≤ srgb_gamma (((160 : Int) : ℝ) / 255) := srgb_gamma_nonneg (by norm_num)
  linarith

lemma wm_lum_gray_gt : wm_lum (160, 160, 160) > 0.6 := by
  show 0.2126 * (((160 : Int) : ℝ) / 255) + 0.7152 * (((160 : Int) : ℝ) / 255)
      + 0.0722 * (((160 : Int) : ℝ) / 255) > 0.6
  norm_num

/-- C8 (counterexample): on the background a0a0a0 the watermark framer and
the spec's gamma-corrected rule disagree — the code's linear lum is
160/255 > 0.6 (dark text on light stroke), while the section 4.1 luminance
of the same gray is below 0.6 (light text on dark stroke). -/
theorem c8_counterexample :
    wm_colors ("#a0a0a0".toList) ("#123456".toList)
      ≠ wm_colors_spec ("#a0a0a0".toList) ("#123456".toList) := by
  have hb : hex_to_rgb ("#a0a0a0".toList) = (160, 160, 160) := by decide
  have h1 : wm_colors ("#a0a0a0".toList) ("#123456".toList)
      = ((30, 30, 30, 240), (0, 0, 0, 210)) := by
    unfold wm_colors
    rw [hb, if_pos wm_lum_gray_gt, if_neg (not_le.mpr wm_lum_gray_gt)]
  have h2 : wm_colors_spec ("#a0a0a0".toList) ("#123456".toList)
      = ((245, 245, 245, 240), (255, 255, 255, 210)) := by
    unfold wm_colors_spec
    rw [hb, if_neg (not_lt.mpr get_lum_gray_le), if_pos get_lum_gray_le]
  rw [h1, h2]
  decide

/-- C8 (amended): the watermark framer chooses its text and stroke colors
from the background hex alone (independent of the foreground palette), but
via the plain linear luminance 0.2126 r + 0.7152 g + 0.0722 b over the
0-1 channel range with threshold 0.6 — not the gamma-corrected section 4.1
luminance. -/
theorem c8_amended (backHex fillHex fillHex2 : PyStr) :
    wm_colors backHex fillHex = wm_colors backHex fillHex2 ∧
    (wm_lum (hex_to_rgb backHex) > 0.6 →
      wm_colors backHex fillHex = ((30, 30, 30, 240), (0, 0, 0, 210))) ∧
    (wm_lum (hex_to_rgb backHex) ≤ 0.6 →
      wm_colors backHex fillHex = ((245, 245, 245, 240), (255, 255, 255, 210))) := by
  refine ⟨rfl, ?_, ?_⟩
  · intro h
    unfold wm_colors
    rw [if_pos h, if_neg (not_le.mpr h)]
  · intro h
    unfold wm_colors
    rw [if_neg (not_lt.mpr h), if_pos h]

/-- C8 (witness): the amended theorem applied to a black background, whose
linear luminance 0 is below the threshold, so the light text pair is
chosen. -/
theorem c8_witness :
    wm_colors ("#000000".toList) ("#123456".toList)
      = ((245, 245, 245, 240), (255, 255, 255, 210)) := by
  have hb : hex_to_rgb ("#000000".toList) = (0, 0, 0) := by decide
  have hl : wm_lum (hex_to_rgb ("#000000".toList)) ≤ 0.6 := by
    rw [hb]
    show 0.2126 * (((0 : Int) : ℝ) / 255) + 0.7152 * (((0 : Int) : ℝ) / 255)
        + 0.0722 * (((0 : Int) : ℝ) / 255) ≤ 0.6
    norm_num
  exact (c8_amended ("#000000".toList) ("#123456".toList) ("#123456".toList)).2.2 hl

-- Entitlements (qrcodegen.py lines 98-100, 107-119, 177-228).

/-- One row of the UserStatus table, restricted to the fields the
entitlement helpers read. -/
structure UserRow where
  email : PyStr
  hasOneTimeAccess : Bool
  isSubPro : Bool
  subscriptionStatus : Option PyStr
deriving DecidableEq

/-- Ambient configuration: the PREMIUM_EMAILS allowlist and the UserStatus
table of the SQLite store. -/
structure Env where
  premiumEmails : List PyStr
  users : List UserRow
deriving DecidableEq

/-- The Flask session state read by the helpers: the signed-in user's
email (if any), the one_time flag, the dev pro_debug flag, and the
uploaded icon path. -/
structure Ctx where
  email : Option PyStr
  oneTime : Bool
  proDebug : Bool
  customIconPath : Option PyStr
deriving DecidableEq

def userLookup (env : Env) (email : PyStr) : Option UserRow :=
  env.users.find? (fun u => u.email == email)

/-- qrcodegen.py lines 197-218: is_pro — allowlisted email, or an active
subscription row, or the dev-mode session override. -/
def is_pro (env : Env) (ctx : Ctx) : Bool :=
  if pyLower ((ctx.email).getD []) ≠ [] ∧ pyLower ((ctx.email).getD []) ∈ env.premiumEmails
  then true
  else if pyLower ((ctx.email).getD []) ≠ [] ∧
      (match userLookup env (pyLower ((ctx.email).getD [])) with
       | some u => u.isSubPro && (u.subscriptionStatus == some ("active".toList))
       | none => false) = true
  then true
  else ctx.proDebug

/-- qrcodegen.py lines 222-224: is_one_time. -/
def is_one_time (ctx : Ctx) : Bool := ctx.oneTime

/-- qrcodegen.py lines 227-228: is_paid. -/
def is_paid (env : Env) (ctx : Ctx) : Bool := is_pro env ctx || is_one_time ctx

lemma is_pro_false_of_not_paid {env : Env} {ctx : Ctx}
    (h : is_paid env ctx = false) : is_pro env ctx = false := by
  unfold is_paid at h
  exact (Bool.or_eq_false_iff.mp h).1

-- Dynamic link store (qrcodegen.py lines 125-173, 1087-1191).

/-- One row of the DynamicLink table (timestamps are not modelled: no
claim under proof mentions them). -/
structure DLink where
  id : String
  ownerEmail : Option PyStr
  targetUrl : PyStr
  label : Option PyStr
deriving DecidableEq

abbrev Store := List DLink

/-- db.session.get(DynamicLink, id): first row with the given primary
key. -/
def dbGet (st : Store) (id : String) : Option DLink := st.find? (fun l => l.id == id)

/-- The short redirect URL url_for("dynamic_redirect", id, _external=True)
built on the application's host: .../r/id. -/
def short_url (id : String) : PyStr := "https://colorqr.app/r/".toList ++ id.toList

/-- Python truthiness of an optional string: None and the empty string are
falsy. -/
def truthyOptStr (o : Option PyStr) : Bool :=
  match o with
  | some s => s ≠ []
  | none => false

/-- The owner recorded by _create_dynamic_link_in_db (lines 144-150): the
session email lowercased, or None when absent or empty. -/
def session_owner (ctx : Ctx) : Option PyStr :=
  match ctx.email with
  | some e => if e = [] then none else some (pyLower e)
  | none => none

/-- The lowercased session email used by the mutation routes. -/
def session_email (ctx : Ctx) : PyStr := pyLower ((ctx.email).getD [])

/-- qrcodegen.py lines 140-173: _create_dynamic_link_in_db.  cands is the
stream of uuid4-derived 8-character candidates, one per loop iteration; the
loop draws at most five and keeps the first not already a primary key.  On
success the new row is appended and (new store, id, short url) returned; on
exhaustion the RuntimeError is modelled as error. -/
def create_dynamic_link_in_db (ctx : Ctx) (st : Store) (cands : List String)
    (targetUrl : PyStr) (label : Option PyStr) : Except PyStr (Store × String × PyStr) :=
  match (cands.take 5).find? (fun c => (dbGet st c).isNone) with
  | none => .error ("Could not generate unique id".toList)
  | some id_ => .ok (st ++ [⟨id_, session_owner ctx, targetUrl, label⟩], id_, short_url id_)

/-- The legacy dynamic.json flat file: id to target URL.  A file whose read
or parse raises (the swallowed exception at lines 1095-1102) is modelled as
none. -/
abbrev LegacyMap := List (String × PyStr)

/-- qrcodegen.py lines 1094-1105: the fallback tail of dynamic_redirect —
the legacy flat file, then the default landing page. -/
def dyn_fallback (legacy : Option LegacyMap) (id : String) : PyStr :=
  match legacy with
  | some m =>
    match m.lookup id with
    | some url => url
    | none => "https://colorqr.app/".toList
  | none => "https://colorqr.app/".toList

/-- qrcodegen.py lines 1087-1105: dynamic_redirect.  Returns the URL the
route redirects to; every path of the route is a redirect. -/
def dynamic_redirect (st : Store) (legacy : Option LegacyMap) (id : String) : PyStr :=
  match dbGet st id with
  | some link => if link.targetUrl ≠ [] then link.targetUrl else dyn_fallback legacy id
  | none => dyn_fallback legacy id

/-- JSON responses of the mutation routes. -/
inductive JsonResp where
  | ok
  | err (msg : PyStr) (status : Nat)
deriving DecidableEq

/-- label = (payload.get("label") or "").strip() or None (lines 1158). -/
def strip_label (labelField : Option PyStr) : Option PyStr :=
  if pyStrip ((labelField).getD []) = [] then none else some (pyStrip ((labelField).getD []))

/-- Mutation of the row found by db.session.get: replace the first row
with the given primary key. -/
def updateFirst (st : Store) (id : String) (tgt : PyStr) (lbl : Option PyStr) : Store :=
  match st with
  | [] => []
  | l :: rest =>
    if l.id = id then ⟨l.id, l.ownerEmail, tgt, lbl⟩ :: rest
    else l :: updateFirst rest id tgt lbl

/-- db.session.delete of the row found by primary key. -/
def eraseFirst (st : Store) (id : String) : Store :=
  match st with
  | [] => []
  | l :: rest => if l.id = id then rest else l :: eraseFirst rest id

/-- qrcodegen.py lines 1135-1164: dynamic_update.  Returns the JSON
response and the store after the request. -/
def dynamic_update (env : Env) (ctx : Ctx) (st : Store) (id : String)
    (targetField labelField : Option PyStr) : JsonResp × Store :=
  if is_pro env ctx = false then (.err ("Pro required".toList) 403, st)
  else if truthyOptStr ctx.email = false then (.err ("Auth required".toList) 401, st)
  else
    match dbGet st id with
    | none => (.err ("Not found".toList) 404, st)
    | some link =>
      if truthyOptStr link.ownerEmail = true ∧ link.ownerEmail ≠ some (session_email ctx)
          ∧ session_email ctx ∉ env.premiumEmails
      then (.err ("Not allowed".toList) 403, st)
      else if normalize_url ((targetField).getD []) = [] then
        (.err ("Target URL required".toList) 400, st)
      else (.ok, updateFirst st id (normalize_url ((targetField).getD [])) (strip_label labelField))

/-- qrcodegen.py lines 1166-1191: dynamic_delete.  Deletion removes only
the mapping row; the rendered dynamic_qr files are left untouched (the
route never touches the file store, hence no file-store component in the
result). -/
def dynamic_delete (env : Env) (ctx : Ctx) (st : Store) (id : String) : JsonResp × Store :=
  if is_pro env ctx = false then (.err ("Pro required".toList) 403, st)
  else if truthyOptStr ctx.email = false then (.err ("Auth required".toList) 401, st)
  else
    match dbGet st id with
    | none => (.err ("Not found".toList) 404, st)
    | some link =>
      if truthyOptStr link.ownerEmail = true ∧ link.ownerEmail ≠ some (session_email ctx)
          ∧ session_email ctx ∉ env.premiumEmails
      then (.err ("Not allowed".toList) 403, st)
      else (.ok, eraseFirst st id)

-- Concrete fixtures shared by several claims.

/-- Fixture: allowlist contains only the admin; the user table holds one
active subscriber eve@x.com. -/
def envB : Env :=
  ⟨[("admin@colorqr.app".toList)],
   [⟨"eve@x.com".toList, false, true, some ("active".toList)⟩]⟩

/-- Fixture: eve's session — signed in, no one-time flag, no debug flag. -/
def ctxEve : Ctx := ⟨some ("eve@x.com".toList), false, false, none⟩

/-- Fixture: a store holding one anonymously created link (unset owner). -/
def stAnon : Store := [⟨"anon1234", none, "https://old.example".toList, none⟩]

/-- Fixture: a store holding one link owned by alice. -/
def stOwned : Store := [⟨"own5678", some ("alice@x.com".toList), "https://a.example".toList, none⟩]

/-- Fixture: a legacy flat-file mapping with one entry. -/
def legA : LegacyMap := [("x1", "https://legacy.example".toList)]

/-- C3 (counterexample): eve is an ordinary Pro subscriber — neither the
owner of the anonymous link anon1234 (which has no owner) nor on the admin
allowlist — yet her update succeeds and rewrites the stored record: the
truthiness guard on owner_email skips the authorization check entirely for
unset-owner links. -/
theorem c3_counterexample :
    dynamic_update envB ctxEve stAnon "anon1234" (some ("new.example".toList)) none
      = (JsonResp.ok, [⟨"anon1234", none, "https://new.example".toList, none⟩]) ∧
    [(⟨"anon1234", none, "https://new.example".toList, none⟩ : DLink)] ≠ stAnon :=
  ⟨by decide, by decide⟩

/-- C3 (amended): for links whose owner_email is set (truthy), an update or
delete by an authenticated Pro caller who is neither the owner nor on the
admin allowlist returns the 403 Not-allowed error, and the store is left
unchanged on every non-mutating path; unset-owner links, by contrast, are
mutable by any Pro-authenticated caller (see the counterexample), not only
by administrators. -/
theorem c3_amended (env : Env) (ctx : Ctx) (st : Store) (id : String)
    (tf lf : Option PyStr) (link : DLink)
    (hfound : dbGet st id = some link)
    (howner : truthyOptStr link.ownerEmail = true)
    (hne : link.ownerEmail ≠ some (session_email ctx))
    (hnadmin : session_email ctx ∉ env.premiumEmails) :
    (dynamic_update env ctx st id tf lf).2 = st ∧
    (dynamic_delete env ctx st id).2 = st ∧
    (is_pro env ctx = true → truthyOptStr ctx.email = true →
      (dynamic_update env ctx st id tf lf).1 = JsonResp.err ("Not allowed".toList) 403 ∧
      (dynamic_delete env ctx st id).1 = JsonResp.err ("Not allowed".toList) 403) := by
  have hcond : truthyOptStr link.ownerEmail = true ∧ link.ownerEmail ≠ some (session_email ctx)
      ∧ session_email ctx ∉ env.premiumEmails := ⟨howner, hne, hnadmin⟩
  have hu : dynamic_update env ctx st id tf lf =
      if is_pro env ctx = false then (.err ("Pro required".toList) 403, st)
      else if truthyOptStr ctx.email = false then (.err ("Auth required".toList) 401, st)
      else (.err ("Not allowed".toList) 403, st) := by
    unfold dynamic_update
    by_cases h1 : is_pro env ctx = false
    · rw [if_pos h1, if_pos h1]
    · rw [if_neg h1, if_neg h1]
      by_cases h2 : truthyOptStr ctx.email = false
      · rw [if_pos h2, if_pos h2]
      · rw [if_neg h2, if_neg h2, hfound]
        dsimp only
        rw [if_pos hcond]
  have hd : dynamic_delete env ctx st id =
      if is_pro env ctx = false then (.err ("Pro required".toList) 403, st)
      else if truthyOptStr ctx.email = false then (.err ("Auth required".toList) 401, st)
      else (.err ("Not allowed".toList) 403, st) := by
    unfold dynamic_delete
    by_cases h1 : is_pro env ctx = false
    · rw [if_pos h1, if_pos h1]
    · rw [if_neg h1, if_neg h1]
      by_cases h2 : truthyOptStr ctx.email = false
      · rw [if_pos h2, if_pos h2]
      · rw [if_neg h2, if_neg h2, hfound]
        dsimp only
        rw [if_pos hcond]
  refine ⟨?_, ?_, ?_⟩
  · rw [hu]
    split
    · rfl
    · split
      · rfl
      · rfl
  · rw [hd]
    split
    · rfl
    · split
      · rfl
      · rfl
  · intro hp ha
    have hp' : ¬ is_pro env ctx = false := by simp [hp]
    have ha' : ¬ truthyOptStr ctx.email = false := by simp [ha]
    rw [hu, hd, if_neg hp', if_neg ha']
    exact ⟨rfl, rfl⟩

/-- C3 (witness): the amended theorem applied to eve (Pro, authenticated)
attempting to mutate alice's link: 403 and an unchanged store. -/
theorem c3_witness :
    (dynamic_update envB ctxEve stOwned "own5678" (some ("new.example".toList)) none).2 = stOwned ∧
    (dynamic_delete envB ctxEve stOwned "own5678").2 = stOwned ∧
    (is_pro envB ctxEve = true → truthyOptStr ctxEve.email = true →
      (dynamic_update envB ctxEve stOwned "own5678" (some ("new.example".toList)) none).1
        = JsonResp.err ("Not allowed".toList) 403 ∧
      (dynamic_delete envB ctxEve stOwned "own5678").1
        = JsonResp.err ("Not allowed".toList) 403) :=
  c3_amended envB ctxEve stOwned "own5678" (some ("new.example".toList)) none
    ⟨"own5678", some ("alice@x.com".toList), "https://a.example".toList, none⟩
    (by decide) (by decide) (by decide) (by decide)

/-- C6: resolving a dynamic id consults the persistent store first (any
row with a truthy target URL wins), then the legacy flat-file mapping, and
otherwise redirects to the default landing page; the route is total — every
path returns a redirect URL. -/
theorem c6_confirmed (st : Store) (leg : Option LegacyMap) (id : String) :
    (∀ link, dbGet st id = some link → link.targetUrl ≠ [] →
      dynamic_redirect st leg id = link.targetUrl) ∧
    ((∀ link, dbGet st id = some link → link.targetUrl = []) →
      ∀ m url, leg = some m → m.lookup id = some url → dynamic_redirect st leg id = url) ∧
    ((∀ link, dbGet st id = some link → link.targetUrl = []) →
      (∀ m, leg = some m → m.lookup id = none) →
      dynamic_redirect st leg id = "https://colorqr.app/".toList) := by
  have hfb : ∀ m url, leg = some m → m.lookup id = some url → dyn_fallback leg id = url := by
    intro m url hleg hlook
    unfold dyn_fallback
    rw [hleg]
    dsimp only
    rw [hlook]
  have hfb2 : (∀ m, leg = some m → m.lookup id = none) →
      dyn_fallback leg id = "https://colorqr.app/".toList := by
    intro hnone
    unfold dyn_fallback
    cases hleg : leg with
    | none => rfl
    | some m =>
      dsimp only
      rw [hnone m hleg]
  refine ⟨?_, ?_, ?_⟩
  · intro link hl hne
    unfold dynamic_redirect
    rw [hl]
    dsimp only
    rw [if_pos hne]
  · intro hmt m url hleg hlook
    unfold dynamic_redirect
    cases hl : dbGet st id with
    | none => exact hfb m url hleg hlook
    | some link =>
      dsimp only
      rw [if_neg (by simp [hmt link hl])]
      exact hfb m url hleg hlook
  · intro hmt hnone
    unfold dynamic_redirect
    cases hl : dbGet st id with
    | none => exact hfb2 hnone
    | some link =>
      dsimp only
      rw [if_neg (by simp [hmt link hl])]
      exact hfb2 hnone

/-- C6 (witness): with an empty persistent store, the legacy flat-file
entry for x1 is served. -/
theorem c6_witness :
    dynamic_redirect [] (some legA) "x1" = "https://legacy.example".toList :=
  (c6_confirmed [] (some legA) "x1").2.1
    (fun _ hl => Option.noConfusion hl) legA ("https://legacy.example".toList) rfl rfl

-- The render pipeline (qrcodegen.py lines 1196-1339) and its collaborators.

/-- qrcode error-correction levels. -/
inductive Ecc where
  | L | M | Q | H
deriving DecidableEq

/-- Free algebra of the PIL image operations performed by the pipeline:
each constructor records one deterministic external-collaborator call with
the exact arguments the route passes. -/
inductive Img where
  | encode (data : PyStr) (version : Option Nat) (ecc : Ecc) (boxSize border : Nat)
      (fill back : PyStr)
  | overlayWifi (base : Img) (fill back : PyStr)
  | overlayUser (base : Img) (fill back : PyStr) (iconPath : Option PyStr)
  | resize (base : Img) (px : Nat)
  | watermark (base : Img) (text back fill : PyStr)
deriving DecidableEq

/-- The payload string fed to the symbol encoder at the root of an image
term. -/
def Img.encodedData : Img → PyStr
  | .encode d _ _ _ _ _ _ => d
  | .overlayWifi b _ _ => b.encodedData
  | .overlayUser b _ _ _ => b.encodedData
  | .resize b _ => b.encodedData
  | .watermark b _ _ _ => b.encodedData

/-- The error-correction level requested from the symbol encoder at the
root of an image term. -/
def Img.eccLevel : Img → Ecc
  | .encode _ _ e _ _ _ _ => e
  | .overlayWifi b _ _ => b.eccLevel
  | .overlayUser b _ _ _ => b.eccLevel
  | .resize b _ => b.eccLevel
  | .watermark b _ _ _ => b.eccLevel

/-- The vector output of _gen_svg_bytes (lines 550-577): the encoder
invocation it performs and the normalized palette it applies. -/
structure SvgBytes where
  data : PyStr
  version : Option Nat
  ecc : Ecc
  boxSize : Nat
  border : Nat
  fill : PyStr
  back : PyStr
deriving DecidableEq

/-- qrcodegen.py lines 550-577: _gen_svg_bytes. -/
def gen_svg_bytes (data fill back : PyStr) : SvgBytes :=
  ⟨data, none, Ecc.H, 10, 4, normalize_hex fill, normalize_hex back⟩

/-- Contents persisted to the data directory. -/
inductive FileContent where
  | jpgFile (img : Img) (quality : Nat)
  | svgFile (svg : SvgBytes)
deriving DecidableEq

/-- The JSON body of a /generate_qr request (None marks an absent key). -/
structure Req where
  dataType : Option PyStr
  data : Option PyStr
  fillColor : Option PyStr
  backColor : Option PyStr
  size : Option PyStr
deriving DecidableEq

/-- The uuid4 draws consumed by one request: the artifact id and the
stream of short-id candidates for dynamic-link creation. -/
structure Supply where
  artifactId : String
  linkCandidates : List String
deriving DecidableEq

/-- The successful response of /generate_qr together with its side
effects: image term, persisted files, and the store after the request. -/
structure GenOk where
  uid : String
  img : Img
  jpgQuality : Nat
  svgAvailable : Bool
  svgBytes : Option SvgBytes
  dynamicId : Option String
  dynamicShort : Option PyStr
  px : Nat
  files : List (String × FileContent)
  store : Store
deriving DecidableEq

inductive GenResult where
  | err (msg : PyStr) (status : Nat)
  | ok (r : GenOk)
deriving DecidableEq

/-- Python `a or b` on an optional string field. -/
def py_or (o : Option PyStr) (dflt : PyStr) : PyStr :=
  if truthyOptStr o = true then (o).getD [] else dflt

/-- Line 1199: data_type = (payload.get("data_type") or "url").lower(). -/
def req_data_type (req : Req) : PyStr := pyLower (py_or req.dataType ("url".toList))

/-- Line 1200: raw = (payload.get("data") or "").strip(). -/
def req_raw (req : Req) : PyStr := pyStrip (py_or req.data [])

/-- Line 1233: fill_color = payload.get("fill_color", "#000000"). -/
def req_fill (req : Req) : PyStr := (req.fillColor).getD ("#000000".toList)

/-- Line 1234: back_color = payload.get("back_color", "#ffffff"). -/
def req_back (req : Req) : PyStr := (req.backColor).getD ("#ffffff".toList)

/-- Line 1236: size_key = payload.get("size", "md"). -/
def req_size (req : Req) : PyStr := (req.size).getD ("md".toList)

/-- Lines 1236-1238: a large request by an unpaid caller is silently
downgraded to medium. -/
def size_key_of (env : Env) (ctx : Ctx) (req : Req) : PyStr :=
  if req_size req = "lg".toList ∧ is_paid env ctx = false then "md".toList else req_size req

/-- Lines 1205-1230: entitlement gates on the data type, the empty-payload
check, and the URL/dynamic payload preprocessing.  On success returns the
string to encode, the dynamic (id, short url) when one was created, and
the store after the request. -/
def gen_data_stage (env : Env) (ctx : Ctx) (st : Store) (req : Req) (s : Supply) :
    Except (PyStr × Nat) (PyStr × Option (String × PyStr) × Store) :=
  if req_data_type req = "vcard".toList ∧ is_pro env ctx = false then
    .error ("vCard available in Pro".toList, 403)
  else if req_data_type req = "dynamic".toList ∧ is_pro env ctx = false then
    .error ("Dynamic QR available in Pro".toList, 403)
  else if req_raw req = [] then .error ("Data is required".toList, 400)
  else if req_data_type req = "url".toList then .ok (normalize_url (req_raw req), none, st)
  else if req_data_type req = "dynamic".toList then
    if normalize_url (req_raw req) = [] then .error ("Target URL required".toList, 400)
    else
      match create_dynamic_link_in_db ctx st s.linkCandidates (normalize_url (req_raw req)) none with
      | .error m => .error (m, 500)
      | .ok (st2, id2, short) => .ok (short, some (id2, short), st2)
  else .ok (req_raw req, none, st)

/-- Line 1246: the pixel dimension of the requested size tier. -/
def gen_image_px (size_key : PyStr) : Nat :=
  if size_key = "sm".toList then 256
  else if size_key = "md".toList then 512
  else if size_key = "lg".toList then 1024
  else 512

/-- Lines 1247-1254: the raster encoder invocation (version None, level H,
box size from the pixel target, border 4). -/
def gen_base_img (raw fill back : PyStr) (box : Nat) : Img :=
  Img.encode raw none Ecc.H box 4 fill back

/-- Lines 1262-1270: badge overlay for wifi always, for vcard only when
the caller is Pro. -/
def gen_overlay (env : Env) (ctx : Ctx) (data_type fill back : PyStr) (img : Img) : Img :=
  if data_type = "wifi".toList then Img.overlayWifi img fill back
  else if data_type = "vcard".toList ∧ is_pro env ctx = true then
    Img.overlayUser img fill back ctx.customIconPath
  else img

/-- Lines 1274-1283: the watermark border added for unpaid callers. -/
def gen_frame (env : Env) (ctx : Ctx) (back fill : PyStr) (img : Img) : Img :=
  if is_paid env ctx = false then
    Img.watermark img ("Created by ColorQR.app".toList) back fill
  else img

/-- Lines 1246-1283: encode, overlay, resize to the tier dimension, frame. -/
def gen_image_stage (env : Env) (ctx : Ctx) (data_type raw fill back size_key : PyStr) :
    Img × Nat :=
  (gen_frame env ctx back fill
    (Img.resize
      (gen_overlay env ctx data_type fill back
        (gen_base_img raw fill back (if 512 ≤ gen_image_px size_key then 10 else 8)))
      (gen_image_px size_key)),
   gen_image_px size_key)

/-- Line 1290: JPG quality 95 for paid callers, 92 otherwise. -/
def gen_quality (env : Env) (ctx : Ctx) : Nat :=
  if is_one_time ctx || is_pro env ctx then 95 else 92

/-- Lines 1297-1309: the SVG bytes are produced only for Pro callers. -/
def gen_svg_opt (env : Env) (ctx : Ctx) (raw fill back : PyStr) : Option SvgBytes :=
  if is_pro env ctx = true then some (gen_svg_bytes raw fill back) else none

/-- Lines 1292-1325: the files persisted under the data directory — the
artifact JPG, the artifact SVG when produced, and for dynamic requests the
per-link copies in dynamic_qr. -/
def gen_files (uid : String) (jpg : FileContent) (svgB : Option SvgBytes)
    (data_type : PyStr) (dynInfo : Option (String × PyStr)) : List (String × FileContent) :=
  [(uid ++ ".jpg", jpg)] ++
  (match svgB with
   | some sb => [(uid ++ ".svg", FileContent.svgFile sb)]
   | none => []) ++
  (if data_type = "dynamic".toList then
    match dynInfo with
    | some (did, _) =>
      [("dynamic_qr/" ++ did ++ ".jpg", jpg)] ++
      (match svgB with
       | some sb => [("dynamic_qr/" ++ did ++ ".svg", FileContent.svgFile sb)]
       | none => [])
    | none => []
  else [])

/-- Lines 1285-1339: artifact id, JPG and SVG generation, persistence, and
the JSON response. -/
def gen_export_stage (env : Env) (ctx : Ctx) (data_type raw fill back : PyStr)
    (img : Img) (px : Nat) (dynInfo : Option (String × PyStr)) (st2 : Store)
    (uid : String) : GenOk :=
  ⟨uid, img, gen_quality env ctx, (gen_svg_opt env ctx raw fill back).isSome,
   gen_svg_opt env ctx raw fill back,
   dynInfo.map (fun p => p.1), dynInfo.map (fun p => p.2), px,
   gen_files uid (FileContent.jpgFile img (gen_quality env ctx))
     (gen_svg_opt env ctx raw fill back) data_type dynInfo,
   st2⟩

open scoped Classical in
/-- qrcodegen.py lines 1196-1339: the /generate_qr POST route.  The only
noncomputable ingredient is the real-valued contrast gate (lines
1240-1244), which runs only for paid callers. -/
noncomputable def generate_qr (env : Env) (ctx : Ctx) (st : Store) (req : Req)
    (s : Supply) : GenResult :=
  match gen_data_stage env ctx st req s with
  | .error (m, c) => .err m c
  | .ok (raw, dynInfo, st2) =>
    if is_paid env ctx = true ∧ ¬ check_contrast_holds (req_fill req) (req_back req) 4.5 then
      .err ("Color contrast is too low (min 4.5:1 required).".toList) 400
    else
      .ok (gen_export_stage env ctx (req_data_type req) raw (req_fill req) (req_back req)
        (gen_image_stage env ctx (req_data_type req) raw (req_fill req) (req_back req)
          (size_key_of env ctx req)).1
        (gen_image_stage env ctx (req_data_type req) raw (req_fill req) (req_back req)
          (size_key_of env ctx req)).2
        dynInfo st2 s.artifactId)

/-- Responses of the file-download routes. -/
inductive FileResp where
  | sendFile (name : String) (suggested : PyStr) (content : FileContent)
  | plainErr (msg : PyStr) (status : Nat)
deriving DecidableEq

/-- qrcodegen.py lines 1396-1416: download_svg.  files is the content of
the data directory keyed by file name; downloadName is the session's
suggested base name. -/
def download_svg (env : Env) (ctx : Ctx) (files : List (String × FileContent))
    (fileId : Option String) (downloadName : PyStr) : FileResp :=
  if is_pro env ctx = false then .plainErr ("Pro required".toList) 403
  else
    match fileId with
    | none => .plainErr ("Missing id".toList) 400
    | some fid =>
      if fid = "" then .plainErr ("Missing id".toList) 400
      else
        match files.lookup (fid ++ ".svg") with
        | none => .plainErr ("Not found".toList) 404
        | some content => .sendFile (fid ++ ".svg") (downloadName ++ ".svg".toList) content

/-- Responses of the prototype endpoint. -/
inductive QrgenResult where
  | err (msg : PyStr) (status : Nat)
  | ok (img : Img)
deriving DecidableEq

/-- src/qrgen.py lines 15-37: the standalone generate_qr endpoint —
version 1, error correction L, box size 10, border 4, black on white. -/
def qrgen_generate_qr (link : PyStr) : QrgenResult :=
  if link = [] then .err ("No link provided".toList) 400
  else .ok (Img.encode link (some 1) Ecc.L 10 4 ("black".toList) ("white".toList))

-- Projections of a GenResult used to state concrete facts about a run.

def genIsErr : GenResult → Bool
  | .err _ _ => true
  | .ok _ => false

def genUid : GenResult → Option String
  | .err _ _ => none
  | .ok r => some r.uid

def genImg : GenResult → Option Img
  | .err _ _ => none
  | .ok r => some r.img

def genPx : GenResult → Nat
  | .err _ _ => 0
  | .ok r => r.px

def genFilesCount : GenResult → Nat
  | .err _ _ => 0
  | .ok r => r.files.length

-- Evaluation lemmas for generate_qr.

lemma generate_qr_err_eval {env : Env} {ctx : Ctx} {st : Store} {req : Req} {s : Supply}
    {m : PyStr} {c : Nat} (hds : gen_data_stage env ctx st req s = .error (m, c)) :
    generate_qr env ctx st req s = GenResult.err m c := by
  unfold generate_qr
  rw [hds]

lemma generate_qr_ok_eval {env : Env} {ctx : Ctx} {st : Store} {req : Req} {s : Supply}
    {raw : PyStr} {dynInfo : Option (String × PyStr)} {st2 : Store}
    (hds : gen_data_stage env ctx st req s = .ok (raw, dynInfo, st2))
    (hc : ¬ (is_paid env ctx = true ∧ ¬ check_contrast_holds (req_fill req) (req_back req) 4.5)) :
    generate_qr env ctx st req s = GenResult.ok (gen_export_stage env ctx
      (req_data_type req) raw (req_fill req) (req_back req)
      (gen_image_stage env ctx (req_data_type req) raw (req_fill req) (req_back req)
        (size_key_of env ctx req)).1
      (gen_image_stage env ctx (req_data_type req) raw (req_fill req) (req_back req)
        (size_key_of env ctx req)).2
      dynInfo st2 s.artifactId) := by
  unfold generate_qr
  rw [hds]
  dsimp only
  rw [if_neg hc]

lemma generate_qr_contrast_eval {env : Env} {ctx : Ctx} {st : Store} {req : Req} {s : Supply}
    {raw : PyStr} {dynInfo : Option (String × PyStr)} {st2 : Store}
    (hds : gen_data_stage env ctx st req s = .ok (raw, dynInfo, st2))
    (hc : is_paid env ctx = true ∧ ¬ check_contrast_holds (req_fill req) (req_back req) 4.5) :
    generate_qr env ctx st req s
      = GenResult.err ("Color contrast is too low (min 4.5:1 required).".toList) 400 := by
  unfold generate_qr
  rw [hds]
  dsimp only
  rw [if_pos hc]

lemma generate_qr_ok_shape {env : Env} {ctx : Ctx} {st : Store} {req : Req} {s : Supply}
    {r : GenOk} (h : generate_qr env ctx st req s = GenResult.ok r) :
    ∃ raw dynInfo st2, gen_data_stage env ctx st req s = .ok (raw, dynInfo, st2) ∧
      r = gen_export_stage env ctx (req_data_type req) raw (req_fill req) (req_back req)
        (gen_image_stage env ctx (req_data_type req) raw (req_fill req) (req_back req)
          (size_key_of env ctx req)).1
        (gen_image_stage env ctx (req_data_type req) raw (req_fill req) (req_back req)
          (size_key_of env ctx req)).2
        dynInfo st2 s.artifactId := by
  rcases hds : gen_data_stage env ctx st req s with ⟨m, c⟩ | ⟨raw, dynInfo, st2⟩
  · rw [generate_qr_err_eval hds] at h
    exact GenResult.noConfusion h
  · by_cases hc : is_paid env ctx = true ∧ ¬ check_contrast_holds (req_fill req) (req_back req) 4.5
    · rw [generate_qr_contrast_eval hds hc] at h
      exact GenResult.noConfusion h
    · rw [generate_qr_ok_eval hds hc] at h
      injection h with h2
      exact ⟨raw, dynInfo, st2, rfl, h2.symm⟩

lemma gen_data_stage_indep (env : Env) (ctx : Ctx) (st : Store) (req : Req)
    (s s' : Supply) (hdt : req_data_type req ≠ "dynamic".toList) :
    gen_data_stage env ctx st req s = gen_data_stage env ctx st req s' := by
  unfold gen_data_stage
  have h2 : ¬ (req_data_type req = "dynamic".toList ∧ is_pro env ctx = false) :=
    fun hx => hdt hx.1
  simp only [if_neg h2, if_neg hdt]

lemma gen_data_stage_dynamic (env : Env) (ctx : Ctx) (st : Store) (req : Req)
    (s : Supply) (cid : String)
    (hdt : req_data_type req = "dynamic".toList)
    (hpro : is_pro env ctx = true)
    (hraw : req_raw req ≠ [])
    (hcand : (s.linkCandidates.take 5).find? (fun c => (dbGet st c).isNone) = some cid) :
    gen_data_stage env ctx st req s = .ok (short_url cid, some (cid, short_url cid),
      st ++ [⟨cid, session_owner ctx, normalize_url (req_raw req), none⟩]) := by
  have h1 : ¬ (req_data_type req = "vcard".toList ∧ is_pro env ctx = false) := by
    intro hx
    rw [hpro] at hx
    exact absurd hx.2 (by decide)
  have h2 : ¬ (req_data_type req = "dynamic".toList ∧ is_pro env ctx = false) := by
    intro hx
    rw [hpro] at hx
    exact absurd hx.2 (by decide)
  have h4 : ¬ req_data_type req = "url".toList := by
    rw [hdt]
    decide
  have htgt : normalize_url (req_raw req) ≠ [] := by
    have hs : pyStrip (req_raw req) = req_raw req := pyStrip_idem _
    unfold normalize_url
    rw [hs, if_neg hraw]
    split
    · exact hraw
    · simp
  unfold gen_data_stage
  rw [if_neg h1, if_neg h2, if_neg hraw, if_neg h4, if_pos hdt, if_neg htgt]
  unfold create_dynamic_link_in_db
  rw [hcand]

lemma overlay_data (env : Env) (ctx : Ctx) (dt fill back : PyStr) (i : Img) :
    (gen_overlay env ctx dt fill back i).encodedData = i.encodedData := by
  unfold gen_overlay
  split
  · rfl
  · split
    · rfl
    · rfl

lemma overlay_ecc (env : Env) (ctx : Ctx) (dt fill back : PyStr) (i : Img) :
    (gen_overlay env ctx dt fill back i).eccLevel = i.eccLevel := by
  unfold gen_overlay
  split
  · rfl
  · split
    · rfl
    · rfl

lemma image_stage_data (env : Env) (ctx : Ctx) (dt raw fill back sk : PyStr) :
    (gen_image_stage env ctx dt raw fill back sk).1.encodedData = raw := by
  unfold gen_image_stage gen_frame
  dsimp only
  split
  · simp [Img.encodedData, overlay_data, gen_base_img]
  · simp [Img.encodedData, overlay_data, gen_base_img]

lemma image_stage_ecc (env : Env) (ctx : Ctx) (dt raw fill back sk : PyStr) :
    (gen_image_stage env ctx dt raw fill back sk).1.eccLevel = Ecc.H := by
  unfold gen_image_stage gen_frame
  dsimp only
  split
  · simp [Img.eccLevel, overlay_ecc, gen_base_img]
  · simp [Img.eccLevel, overlay_ecc, gen_base_img]

lemma gen_files_no_svg (uid : String) (img : Img) (q : Nat) (dt : PyStr)
    (dynInfo : Option (String × PyStr)) :
    ∀ name sb, (name, FileContent.svgFile sb)
      ∉ gen_files uid (FileContent.jpgFile img q) none dt dynInfo := by
  intro name sb hmem
  unfold gen_files at hmem
  rcases List.mem_append.mp hmem with h | h
  · rcases List.mem_append.mp h with h2 | h2
    · simp at h2
    · simp at h2
  · split at h
    · cases dynInfo with
      | none => simp at h
      | some p =>
        cases p with
        | mk did sh =>
          dsimp only at h
          simp at h
    · simp at h

lemma contrast_black_white : check_contrast_holds ("#000000".toList) ("#ffffff".toList) 4.5 := by
  unfold check_contrast_holds contrast_cr
  have h1 : hex_to_rgb ("#000000".toList) = (0, 0, 0) := by decide
  have h2 : hex_to_rgb ("#ffffff".toList) = (255, 255, 255) := by decide
  rw [h1, h2]
  have g0 : get_luminance (0, 0, 0) = 0 := by
    show 0.2126 * srgb_gamma (((0 : Int) : ℝ) / 255) + 0.7152 * srgb_gamma (((0 : Int) : ℝ) / 255)
        + 0.0722 * srgb_gamma (((0 : Int) : ℝ) / 255) = 0
    have hz : (((0 : Int) : ℝ) / 255) = 0 := by norm_num
    rw [hz, srgb_gamma_zero]
    ring
  have g1 : get_luminance (255, 255, 255) = 1 := by
    show 0.2126 * srgb_gamma (((255 : Int) : ℝ) / 255)
        + 0.7152 * srgb_gamma (((255 : Int) : ℝ) / 255)
        + 0.0722 * srgb_gamma (((255 : Int) : ℝ) / 255) = 1
    have ho : (((255 : Int) : ℝ) / 255) = 1 := by norm_num
    rw [ho, srgb_gamma_one]
    ring
  rw [g0, g1]
  rw [max_eq_right (by norm_num : (0 : ℝ) ≤ 1), min_eq_left (by norm_num : (0 : ℝ) ≤ 1)]
  norm_num

lemma data_stage_no403 {env : Env} {ctx : Ctx} {st : Store} {req : Req} {s : Supply}
    (hp : is_pro env ctx = true) (m : PyStr) :
    gen_data_stage env ctx st req s ≠ .error (m, 403) := by
  have h1 : ¬ (req_data_type req = "vcard".toList ∧ is_pro env ctx = false) := by
    intro hx
    rw [hp] at hx
    exact absurd hx.2 (by decide)
  have h2 : ¬ (req_data_type req = "dynamic".toList ∧ is_pro env ctx = false) := by
    intro hx
    rw [hp] at hx
    exact absurd hx.2 (by decide)
  unfold gen_data_stage
  rw [if_neg h1, if_neg h2]
  intro hEq
  split at hEq
  · simp at hEq
  · split at hEq
    · exact Except.noConfusion hEq
    · split at hEq
      · split at hEq
        · simp at hEq
        · split at hEq
          · simp at hEq
          · exact Except.noConfusion hEq
      · exact Except.noConfusion hEq

lemma contrast_gate_defaults (env : Env) (ctx : Ctx) :
    ¬ (is_paid env ctx = true ∧
        ¬ check_contrast_holds ("#000000".toList) ("#ffffff".toList) 4.5) :=
  fun hx => hx.2 contrast_black_white

-- Fixtures for the pipeline claims.

/-- Fixture: empty allowlist and user table. -/
def envA : Env := ⟨[], []⟩

/-- Fixture: an anonymous free session. -/
def ctxFree : Ctx := ⟨none, false, false, none⟩

/-- Fixture: a signed-in caller holding only one-time access. -/
def ctxOneTime : Ctx := ⟨some ("buyer@x.com".toList), true, false, none⟩

/-- Fixture: a URL render request asking for the large size tier. -/
def reqLarge : Req := ⟨some ("url".toList), some ("example.com".toList), none, none, some ("lg".toList)⟩

/-- Fixture: a vCard render request. -/
def reqVcard : Req := ⟨some ("vcard".toList), some ("BEGIN:VCARD".toList), none, none, none⟩

/-- Fixture: a dynamic render request targeting example.org. -/
def reqDyn : Req := ⟨some ("dynamic".toList), some ("example.org".toList), none, none, none⟩

def supplyA : Supply := ⟨"art00001", []⟩

def supplyA2 : Supply := ⟨"art00002", []⟩

def supplyD1 : Supply := ⟨"art1", ["dynid001"]⟩

def supplyD2 : Supply := ⟨"art2", ["dynid002"]⟩

/-- C1 (counterexample): a free caller requesting sizeTier=large does not
receive an EntitlementError: the request succeeds, a raster artifact is
persisted, and the size is silently downgraded to 512 px. -/
theorem c1_counterexample :
    genIsErr (generate_qr envA ctxFree [] reqLarge supplyA) = false ∧
    genPx (generate_qr envA ctxFree [] reqLarge supplyA) = 512 ∧
    genFilesCount (generate_qr envA ctxFree [] reqLarge supplyA) = 1 := by
  have hds : gen_data_stage envA ctxFree [] reqLarge supplyA
      = .ok ("https://example.com".toList, none, []) := rfl
  have hc : ¬ (is_paid envA ctxFree = true ∧
      ¬ check_contrast_holds (req_fill reqLarge) (req_back reqLarge) 4.5) := by
    intro hx
    exact absurd hx.1 (by decide)
  rw [generate_qr_ok_eval hds hc]
  refine ⟨rfl, by decide, by decide⟩

/-- C1 (amended): vector export for a free-tier caller is refused with the
403 entitlement error and no vector artifact exists (none is generated or
persisted for unpaid renders); a sizeTier=large request from a free caller,
however, is not an error — it is silently downgraded to the 512 px medium
tier and a raster artifact is produced. -/
theorem c1_amended (env : Env) (ctx : Ctx) (st : Store) (req : Req) (s : Supply)
    (files : List (String × FileContent)) (fid : Option String) (dn : PyStr)
    (hfree : is_paid env ctx = false) :
    download_svg env ctx files fid dn = FileResp.plainErr ("Pro required".toList) 403 ∧
    (∀ r, generate_qr env ctx st req s = GenResult.ok r →
      r.svgBytes = none ∧ r.svgAvailable = false ∧
      (∀ name sb, (name, FileContent.svgFile sb) ∉ r.files) ∧
      (req.size = some ("lg".toList) → r.px = 512)) := by
  have hpro := is_pro_false_of_not_paid hfree
  constructor
  · unfold download_svg
    rw [if_pos hpro]
  · intro r h
    obtain ⟨raw, dynInfo, st2, hds, hr⟩ := generate_qr_ok_shape h
    subst hr
    have hsvg : gen_svg_opt env ctx raw (req_fill req) (req_back req) = none := by
      unfold gen_svg_opt
      rw [hpro]
      simp
    refine ⟨?_, ?_, ?_, ?_⟩
    · dsimp only [gen_export_stage]
      exact hsvg
    · dsimp only [gen_export_stage]
      rw [hsvg]
      rfl
    · intro name sb
      dsimp only [gen_export_stage]
      rw [hsvg]
      exact gen_files_no_svg _ _ _ _ _ name sb
    · intro hsz
      show gen_image_px (size_key_of env ctx req) = 512
      have hkey : size_key_of env ctx req = "md".toList := by
        unfold size_key_of req_size
        rw [hsz]
        simp [hfree]
      rw [hkey]
      decide

/-- C1 (witness): the amended theorem at a concrete free caller. -/
theorem c1_witness :
    download_svg envA ctxFree [] none [] = FileResp.plainErr ("Pro required".toList) 403 ∧
    (∀ r, generate_qr envA ctxFree [] reqLarge supplyA = GenResult.ok r →
      r.svgBytes = none ∧ r.svgAvailable = false ∧
      (∀ name sb, (name, FileContent.svgFile sb) ∉ r.files) ∧
      (reqLarge.size = some ("lg".toList) → r.px = 512)) :=
  c1_amended envA ctxFree [] reqLarge supplyA [] none [] (by decide)

/-- C2 (counterexample): a caller holding only one-time access — a paid
tier — is rejected with the 403 entitlement error when requesting a vCard
render, because the gate tests is_pro alone, which one-time access does not
grant. -/
theorem c2_counterexample :
    generate_qr envA ctxOneTime [] reqVcard supplyA
      = GenResult.err ("vCard available in Pro".toList) 403 :=
  generate_qr_err_eval rfl

/-- C2 (amended): dataType vcard and dynamic are gated on is_pro alone
(active subscription, admin allowlist, or the dev override): a non-pro
caller — including a one-time purchaser — receives the 403 entitlement
error, and a pro caller is never refused with a 403 by this route. -/
theorem c2_amended (env : Env) (ctx : Ctx) (st : Store) (req : Req) (s : Supply)
    (h : req_data_type req = "vcard".toList ∨ req_data_type req = "dynamic".toList) :
    (is_pro env ctx = false →
      generate_qr env ctx st req s = GenResult.err
        (if req_data_type req = "vcard".toList then "vCard available in Pro".toList
         else "Dynamic QR available in Pro".toList) 403) ∧
    (is_pro env ctx = true →
      ∀ m, generate_qr env ctx st req s ≠ GenResult.err m 403) := by
  constructor
  · intro hp
    rcases h with h | h
    · have hds : gen_data_stage env ctx st req s
          = .error ("vCard available in Pro".toList, 403) := by
        unfold gen_data_stage
        rw [if_pos ⟨h, hp⟩]
      rw [if_pos h]
      exact generate_qr_err_eval hds
    · have hnv : ¬ req_data_type req = "vcard".toList := by
        rw [h]
        decide
      have hds : gen_data_stage env ctx st req s
          = .error ("Dynamic QR available in Pro".toList, 403) := by
        unfold gen_data_stage
        rw [if_neg (fun hx => hnv hx.1), if_pos ⟨h, hp⟩]
      rw [if_neg hnv]
      exact generate_qr_err_eval hds
  · intro hp m hEq
    rcases hds : gen_data_stage env ctx st req s with ⟨m2, c2⟩ | ⟨raw, dynInfo, st2⟩
    · rw [generate_qr_err_eval hds] at hEq
      injection hEq with hm hc
      subst hc
      exact data_stage_no403 hp m2 hds
    · by_cases hcc : is_paid env ctx = true ∧
          ¬ check_contrast_holds (req_fill req) (req_back req) 4.5
      · rw [generate_qr_contrast_eval hds hcc] at hEq
        injection hEq with hm hc
        exact absurd hc (by decide)
      · rw [generate_qr_ok_eval hds hcc] at hEq
        exact GenResult.noConfusion hEq

/-- C2 (witness): the amended theorem at the one-time caller fixture. -/
theorem c2_witness :
    (is_pro envA ctxOneTime = false →
      generate_qr envA ctxOneTime [] reqVcard supplyA = GenResult.err
        (if req_data_type reqVcard = "vcard".toList then "vCard available in Pro".toList
         else "Dynamic QR available in Pro".toList) 403) ∧
    (is_pro envA ctxOneTime = true →
      ∀ m, generate_qr envA ctxOneTime [] reqVcard supplyA ≠ GenResult.err m 403) :=
  c2_amended envA ctxOneTime [] reqVcard supplyA (Or.inl (by decide))

/-- C4: a dynamic render with a non-empty payload by a Pro caller appends
exactly one DynamicLink whose target URL is the normalized input, and the
string handed to the symbol encoder is the link's short redirect URL, not
the original target. -/
theorem c4_confirmed (env : Env) (ctx : Ctx) (st : Store) (req : Req) (s : Supply)
    (cid : String)
    (hdt : req_data_type req = "dynamic".toList)
    (hpro : is_pro env ctx = true)
    (hraw : req_raw req ≠ [])
    (hcand : (s.linkCandidates.take 5).find? (fun c => (dbGet st c).isNone) = some cid)
    (hc : ¬ (is_paid env ctx = true ∧
      ¬ check_contrast_holds (req_fill req) (req_back req) 4.5)) :
    ∃ r, generate_qr env ctx st req s = GenResult.ok r ∧
      r.store = st ++ [⟨cid, session_owner ctx, normalize_url (req_raw req), none⟩] ∧
      r.img.encodedData = short_url cid ∧
      r.dynamicId = some cid ∧
      r.dynamicShort = some (short_url cid) := by
  have hds := gen_data_stage_dynamic env ctx st req s cid hdt hpro hraw hcand
  refine ⟨_, generate_qr_ok_eval hds hc, rfl, ?_, rfl, rfl⟩
  exact image_stage_data env ctx (req_data_type req) (short_url cid) (req_fill req)
    (req_back req) (size_key_of env ctx req)

/-- C4 (witness): the theorem at eve's Pro session creating a link for
example.org with candidate id dynid001. -/
theorem c4_witness :
    ∃ r, generate_qr envB ctxEve [] reqDyn supplyD1 = GenResult.ok r ∧
      r.store = [] ++ [⟨"dynid001", session_owner ctxEve, normalize_url (req_raw reqDyn), none⟩] ∧
      r.img.encodedData = short_url "dynid001" ∧
      r.dynamicId = some "dynid001" ∧
      r.dynamicShort = some (short_url "dynid001") :=
  c4_confirmed envB ctxEve [] reqDyn supplyD1 "dynid001" rfl rfl (by decide) rfl
    (contrast_gate_defaults envB ctxEve)

/-- C7 (counterexample): the prototype endpoint in src/qrgen.py invokes
the symbol encoder at level L, a weaker level than H, so not every code
path of the repository requests the strongest level. -/
theorem c7_counterexample :
    qrgen_generate_qr ("https://example.com".toList)
      = QrgenResult.ok (Img.encode ("https://example.com".toList) (some 1) Ecc.L 10 4
          ("black".toList) ("white".toList)) ∧
    Ecc.L ≠ Ecc.H :=
  ⟨by decide, by decide⟩

/-- C7 (amended): within the main application (qrcodegen.py) every encoder
invocation requests level H: the raster image of every successful
/generate_qr run carries level H at its root, and every vector export —
both inside the pipeline and in _gen_svg_bytes itself — requests level H;
the prototype src/qrgen.py, by contrast, requests level L. -/
theorem c7_amended (env : Env) (ctx : Ctx) (st : Store) (req : Req) (s : Supply) :
    (∀ r, generate_qr env ctx st req s = GenResult.ok r →
      r.img.eccLevel = Ecc.H ∧ (∀ sb, r.svgBytes = some sb → sb.ecc = Ecc.H)) ∧
    (∀ d f b, (gen_svg_bytes d f b).ecc = Ecc.H) := by
  constructor
  · intro r h
    obtain ⟨raw, dynInfo, st2, hds, hr⟩ := generate_qr_ok_shape h
    subst hr
    constructor
    · exact image_stage_ecc env ctx (req_data_type req) raw (req_fill req) (req_back req)
        (size_key_of env ctx req)
    · intro sb hsb
      have h2 : gen_svg_opt env ctx raw (req_fill req) (req_back req) = some sb := hsb
      unfold gen_svg_opt at h2
      split at h2
      · injection h2 with h3
        rw [← h3]
        rfl
      · exact Option.noConfusion h2
  · intro d f b
    rfl

/-- C7 (witness): the amended theorem at the free-caller fixture. -/
theorem c7_witness :
    (∀ r, generate_qr envA ctxFree [] reqLarge supplyA = GenResult.ok r →
      r.img.eccLevel = Ecc.H ∧ (∀ sb, r.svgBytes = some sb → sb.ecc = Ecc.H)) ∧
    (∀ d f b, (gen_svg_bytes d f b).ecc = Ecc.H) :=
  c7_amended envA ctxFree [] reqLarge supplyA

/-- C9 (counterexample): two runs of the same dynamic-target request with
fresh uuid draws yield distinct artifact ids but also distinct rasters:
the freshly drawn link id enters the encoded payload, so the symbols
differ. -/
theorem c9_counterexample :
    genUid (generate_qr envB ctxEve [] reqDyn supplyD1)
      ≠ genUid (generate_qr envB ctxEve [] reqDyn supplyD2) ∧
    genImg (generate_qr envB ctxEve [] reqDyn supplyD1)
      ≠ genImg (generate_qr envB ctxEve [] reqDyn supplyD2) := by
  have h1 := generate_qr_ok_eval
    (gen_data_stage_dynamic envB ctxEve [] reqDyn supplyD1 "dynid001" rfl rfl (by decide) rfl)
    (contrast_gate_defaults envB ctxEve)
  have h2 := generate_qr_ok_eval
    (gen_data_stage_dynamic envB ctxEve [] reqDyn supplyD2 "dynid002" rfl rfl (by decide) rfl)
    (contrast_gate_defaults envB ctxEve)
  rw [h1, h2]
  refine ⟨by decide, by decide⟩

/-- C9 (amended): for every non-dynamic request, two runs on identical
inputs differ only in the drawn artifact id: when both succeed their ids
are the respective supply ids (distinct when the draws are distinct) and
their raster content — image term and JPG quality — is identical; the two
runs also agree on whether they fail.  For dynamic-target requests the
fresh link id enters the payload, so the rasters differ (see the
counterexample). -/
theorem c9_amended (env : Env) (ctx : Ctx) (st : Store) (req : Req) (s1 s2 : Supply)
    (hdt : req_data_type req ≠ "dynamic".toList)
    (hid : s1.artifactId ≠ s2.artifactId) :
    (∀ r1 r2, generate_qr env ctx st req s1 = GenResult.ok r1 →
      generate_qr env ctx st req s2 = GenResult.ok r2 →
      r1.uid ≠ r2.uid ∧
      FileContent.jpgFile r1.img r1.jpgQuality = FileContent.jpgFile r2.img r2.jpgQuality) ∧
    genIsErr (generate_qr env ctx st req s1) = genIsErr (generate_qr env ctx st req s2) := by
  have hind := gen_data_stage_indep env ctx st req s1 s2 hdt
  constructor
  · intro r1 r2 h1 h2
    obtain ⟨raw1, d1, t1, hds1, hr1⟩ := generate_qr_ok_shape h1
    obtain ⟨raw2, d2, t2, hds2, hr2⟩ := generate_qr_ok_shape h2
    have he : (Except.ok (raw1, d1, t1) : Except (PyStr × Nat) _)
        = Except.ok (raw2, d2, t2) := by
      rw [← hds1, ← hds2, hind]
    injection he with he2
    injection he2 with hraw hrest
    injection hrest with hd ht
    subst hraw
    subst hd
    subst ht
    subst hr1
    subst hr2
    constructor
    · exact hid
    · rfl
  · rcases hds : gen_data_stage env ctx st req s2 with ⟨m, c⟩ | ⟨raw, dynInfo, st2⟩
    · rw [generate_qr_err_eval (hind.trans hds), generate_qr_err_eval hds]
    · by_cases hc : is_paid env ctx = true ∧
          ¬ check_contrast_holds (req_fill req) (req_back req) 4.5
      · rw [generate_qr_contrast_eval (hind.trans hds) hc, generate_qr_contrast_eval hds hc]
      · rw [generate_qr_ok_eval (hind.trans hds) hc, generate_qr_ok_eval hds hc]
        rfl

/-- C9 (witness): the amended theorem at the free URL request with two
distinct artifact-id draws. -/
theorem c9_witness :
    (∀ r1 r2, generate_qr envA ctxFree [] reqLarge supplyA = GenResult.ok r1 →
      generate_qr envA ctxFree [] reqLarge supplyA2 = GenResult.ok r2 →
      r1.uid ≠ r2.uid ∧
      FileContent.jpgFile r1.img r1.jpgQuality = FileContent.jpgFile r2.img r2.jpgQuality) ∧
    genIsErr (generate_qr envA ctxFree [] reqLarge supplyA)
      = genIsErr (generate_qr envA ctxFree [] reqLarge supplyA2) :=
  c9_amended envA ctxFree [] reqLarge supplyA supplyA2 (by decide) (by decide)
